import Mathlib

/-
Verification of the session-scoped conversation store and request-orchestration
layer of the MY-AI-BOT chat server (src/server/routes.ts together with the
schema and Gemini service modules).

Modelling conventions:
* A JavaScript `Map` iterates in insertion order, so `MemStorage.messages` is a
  list kept in insertion (creation) order; `randomUUID()` is modelled by a
  counter that yields a fresh id per creation.
* `new Date()` / `Date.now()` timestamps are natural numbers supplied by the
  caller of each handler (the ambient clock), in milliseconds.
* `Array.prototype.sort` with comparator `a.timestamp - b.timestamp` is a
  stable sort by timestamp (stability is required by ES2019); it is modelled
  by the stable insertion sort `tsSort` below.
* External collaborators (the Gemini API, the file system, multer) are
  parameters of the handler functions: the handler is a pure function of the
  request, the store state, the clock values and the outcome of each external
  call.
* JavaScript truthiness on optional strings (`x || y`) is modelled explicitly:
  `none` and `some ""` are falsy.
-/

namespace MyAiBot

/-- A persisted chat message, mirroring the `messages` table of the schema
module: id, content, role ("user" or "assistant"), sessionId, timestamp,
optional imageUrl, and messageType ("text", "image" or "image_generation"). -/
structure Message where
  id : Nat
  content : String
  role : String
  sessionId : String
  timestamp : Nat
  imageUrl : Option String
  messageType : String
deriving Repr, DecidableEq

/-- The insert shape accepted by `createMessage` (the `InsertMessage` type of
the schema module): content, role and sessionId are required; imageUrl and
messageType are optional. -/
structure InsertMessage where
  content : String
  role : String
  sessionId : String
  imageUrl : Option String
  messageType : Option String
deriving Repr, DecidableEq

/-- The in-memory store `MemStorage`: messages in insertion order (a JS `Map`
iterates in insertion order) plus a counter modelling fresh-id generation. -/
structure MemStorage where
  messages : List Message
  nextId : Nat
deriving Repr, DecidableEq

/-- JavaScript `x || null` on an optional string: `none` and `some ""` are
falsy and give `none`. -/
def jsOrNullStr : Option String → Option String
  | some s => if s = "" then none else some s
  | none => none

/-- JavaScript `x || d` on an optional string: falsy (`none` or `some ""`)
falls back to the default `d`. -/
def jsOrElse (x : Option String) (d : String) : String :=
  match x with
  | some s => if s = "" then d else s
  | none => d

/-- JavaScript `s || d` on a plain string: the empty string is falsy. -/
def jsStrOr (s d : String) : String :=
  if s = "" then d else s

/-- JavaScript truthiness of an optional string. -/
def jsTruthy : Option String → Bool
  | some s => s != ""
  | none => false

/-- `MemStorage.createMessage`: assigns a fresh id and the creation timestamp,
defaults `imageUrl` to null and `messageType` to "text" via the `||`
fallbacks of the source, appends the record to the store and returns it. -/
def createMessage (st : MemStorage) (im : InsertMessage) (now : Nat) :
    Message × MemStorage :=
  let m : Message :=
    { id := st.nextId
      content := im.content
      role := im.role
      sessionId := im.sessionId
      timestamp := now
      imageUrl := jsOrNullStr im.imageUrl
      messageType := jsOrElse im.messageType "text" }
  (m, { messages := st.messages ++ [m], nextId := st.nextId + 1 })

/-- Stable insertion of a message into a list ordered by timestamp: the new
message goes after strictly smaller timestamps and before the first position
whose timestamp is greater or equal. -/
def tsInsert (m : Message) : List Message → List Message
  | [] => [m]
  | x :: xs => if m.timestamp ≤ x.timestamp then m :: x :: xs else x :: tsInsert m xs

/-- Stable sort by timestamp, modelling `Array.prototype.sort` with the
comparator `a.timestamp.getTime() - b.timestamp.getTime()` (ES2019 requires
the sort to be stable). -/
def tsSort : List Message → List Message
  | [] => []
  | x :: xs => tsInsert x (tsSort xs)

/-- `MemStorage.getMessagesBySessionId`: the messages of the session, in
timestamp order (stable, so insertion order breaks ties). -/
def getMessagesBySessionId (st : MemStorage) (sessionId : String) : List Message :=
  tsSort (st.messages.filter (fun m => m.sessionId == sessionId))

/-- `MemStorage.clearMessagesBySessionId`: deletes every message whose
sessionId matches. -/
def clearMessagesBySessionId (st : MemStorage) (sessionId : String) : MemStorage :=
  { st with messages := st.messages.filter (fun m => m.sessionId != sessionId) }

/-- A message of the conversation history handed to
`generateChatResponseWithHistory` (role, content, optional imageUrl). -/
structure ConvMsg where
  role : String
  content : String
  imageUrl : Option String
deriving Repr, DecidableEq

/-- A content part of a formatted Gemini message: plain text, or inline
base64 image data with a mime type. -/
inductive Part where
  | text (s : String)
  | inlineData (data : String) (mimeType : String)
deriving Repr, DecidableEq

/-- A formatted message of the Gemini request: external role ("user" or
"model") and content parts. -/
structure FormattedMessage where
  role : String
  parts : List Part
deriving Repr, DecidableEq

/-- The file system as seen by the service layer: existence test
(`fs.existsSync`) and reading a file as base64 data
(`fs.readFileSync(..).toString("base64")`). -/
structure FileSystem where
  existsSync : String → Bool
  readBase64 : String → String

/-- The per-message formatting step of `generateChatResponseWithHistory`:
the text part always; the inline image part only when `imageUrl` is truthy
and the file exists; role "assistant" maps to "model", any other role to
"user". -/
def formatMessage (fs : FileSystem) (msg : ConvMsg) : FormattedMessage :=
  let parts : List Part := [Part.text msg.content]
  let parts :=
    match msg.imageUrl with
    | some u =>
      if u = "" then parts
      else if fs.existsSync u then
        parts ++ [Part.inlineData (fs.readBase64 u) "image/jpeg"]
      else parts
    | none => parts
  { role := if msg.role = "assistant" then "model" else "user", parts := parts }

/-- The fixed fallback reply used when the model returns empty text. -/
def chatFallback : String :=
  "I apologize, but I couldn\x27t generate a response. Please try again."

/-- `generateChatResponseWithHistory`: formats the history, calls the Gemini
API (an external function from formatted messages to either an error or the
optional response text), returns the text or the fallback on empty text, and
wraps any API failure into a fixed error message. -/
def generateChatResponseWithHistory (fs : FileSystem)
    (api : List FormattedMessage → Except String (Option String))
    (messages : List ConvMsg) : Except String String :=
  let formattedMessages := messages.map (formatMessage fs)
  match api formattedMessages with
  | Except.ok t => Except.ok (jsOrElse t chatFallback)
  | Except.error _ => Except.error "Failed to generate response from Gemini API"

/-- Result of the POST /api/chat handler: the HTTP outcome (the two persisted
messages, or an error), the resulting store, and — as an observation for the
specification — the conversation history that was handed to the model call
(none when the call was never reached). -/
structure ChatResult where
  response : Except String (Message × Message)
  store : MemStorage
  historySent : Option (List ConvMsg)
deriving Repr

/-- The POST /api/chat handler: validate the body (message length 1..2000,
sessionId length at least 1), persist the user message, build the history of
the session, call the model, persist the assistant message on success; on
model failure respond with an error, keeping the user message. -/
def postChat (fs : FileSystem)
    (api : List FormattedMessage → Except String (Option String))
    (st : MemStorage) (message sessionId : String) (t1 t2 : Nat) : ChatResult :=
  if 1 ≤ message.length ∧ message.length ≤ 2000 ∧ 1 ≤ sessionId.length then
    let r1 := createMessage st ⟨message, "user", sessionId, none, none⟩ t1
    let userMessage := r1.1
    let st1 := r1.2
    let history := getMessagesBySessionId st1 sessionId
    let conversationHistory := history.map (fun msg => ConvMsg.mk msg.role msg.content msg.imageUrl)
    match generateChatResponseWithHistory fs api conversationHistory with
    | Except.error e =>
      { response := Except.error e, store := st1, historySent := some conversationHistory }
    | Except.ok responseText =>
      let r2 := createMessage st1 ⟨responseText, "assistant", sessionId, none, none⟩ t2
      { response := Except.ok (userMessage, r2.1), store := r2.2,
        historySent := some conversationHistory }
  else
    { response := Except.error "Invalid request body", store := st, historySent := none }

/-- Result of the POST /api/upload-image handler: the HTTP outcome and the
resulting store. -/
structure UploadResult where
  response : Except String (Message × Message)
  store : MemStorage
deriving Repr

/-- The POST /api/upload-image handler: require a bound file and a truthy
sessionId (rejected before any persistence otherwise), persist the user
message with the stored image path, call image analysis, persist the
assistant message on success. -/
def postUploadImage (analyze : String → Option String → Except String String)
    (st : MemStorage) (file : Option String) (sessionId : Option String)
    (message : String) (t1 t2 : Nat) : UploadResult :=
  match file with
  | none => { response := Except.error "No image file provided", store := st }
  | some imagePath =>
    if jsTruthy sessionId then
      let sid := sessionId.getD ""
      let r1 := createMessage st
        ⟨jsStrOr message "I\x27ve uploaded an image for you to analyze.",
          "user", sid, some imagePath, some "image"⟩ t1
      match analyze imagePath (if message = "" then none else some message) with
      | Except.error e => { response := Except.error e, store := r1.2 }
      | Except.ok analysisResult =>
        let r2 := createMessage r1.2 ⟨analysisResult, "assistant", sid, none, some "text"⟩ t2
        { response := Except.ok (r1.1, r2.1), store := r2.2 }
    else
      { response := Except.error "Session ID is required", store := st }

/-- Fuel-driven rendering of the decimal digits of a natural number,
accumulator style; `fuel` at least `n` suffices. -/
def natDecimalAux : Nat → Nat → List Char → List Char
  | 0, _, acc => acc
  | fuel + 1, n, acc =>
    if n = 0 then acc
    else natDecimalAux fuel (n / 10) (Nat.digitChar (n % 10) :: acc)

/-- Decimal rendering of a natural number, modelling the JavaScript
number-to-string conversion used in template literals. -/
def natDecimal (n : Nat) : String :=
  if n = 0 then "0" else String.mk (natDecimalAux n n [])

/-- The generated filename of the image-generation handler: the template
literal combining the fixed stem with `Date.now()`. -/
def imageFilename (now : Nat) : String :=
  "generated_" ++ natDecimal now ++ ".jpg"

/-- Result of the POST /api/generate-image handler: the HTTP outcome, the
resulting store, and — as an observation — the storage path the generated
binary was written to (none when no write happened). -/
structure GenerateResult where
  response : Except String (Message × Message)
  store : MemStorage
  writtenPath : Option String
deriving Repr

/-- The POST /api/generate-image handler: validate the body (prompt length
1..1000, sessionId length at least 1), persist the user request message,
build the output path `uploads/generated_` followed by the clock value and
`.jpg` (the two plain segments make path.join a plain concatenation), call
image generation, persist the assistant message with the image path on
success. -/
def postGenerateImage (gen : String → String → Except String Unit)
    (st : MemStorage) (prompt sessionId : String) (t1 now t2 : Nat) : GenerateResult :=
  if 1 ≤ prompt.length ∧ prompt.length ≤ 1000 ∧ 1 ≤ sessionId.length then
    let r1 := createMessage st
      ⟨"Generate an image: " ++ prompt, "user", sessionId, none, some "text"⟩ t1
    let imagePath := "uploads/" ++ imageFilename now
    match gen prompt imagePath with
    | Except.error e => { response := Except.error e, store := r1.2, writtenPath := none }
    | Except.ok _ =>
      let r2 := createMessage r1.2
        ⟨"I\x27ve generated an image based on your prompt: \"" ++ prompt ++ "\"",
          "assistant", sessionId, some imagePath, some "image_generation"⟩ t2
      { response := Except.ok (r1.1, r2.1), store := r2.2, writtenPath := some imagePath }
  else
    { response := Except.error "Invalid request body", store := st, writtenPath := none }

/-- Splits a character list at every slash, keeping empty segments. -/
def splitSlashAux : List Char → List Char → List String
  | [], acc => [String.mk acc.reverse]
  | c :: cs, acc =>
    if c = '/' then String.mk acc.reverse :: splitSlashAux cs []
    else splitSlashAux cs (c :: acc)

/-- Splits a string at every slash. -/
def splitSlash (s : String) : List String :=
  splitSlashAux s.data []

/-- One step of POSIX path normalization over a reversed stack of kept
segments: empty and dot segments vanish; a dot-dot segment pops the last
kept segment unless the stack is empty or already ends in dot-dot (then it
is kept, as the path is relative); any other segment is pushed. -/
def normStep (stack : List String) (seg : String) : List String :=
  if seg = "" ∨ seg = "." then stack
  else if seg = ".." then
    match stack with
    | [] => [".."]
    | a :: rest => if a = ".." then ".." :: a :: rest else rest
  else seg :: stack

/-- Node `path.join("uploads", filename)`: concatenate with a separator and
normalize (dot and empty segments dropped, dot-dot resolved against the
stack); an empty result renders as the dot path. -/
def posixJoinUploads (filename : String) : String :=
  let segs := "uploads" :: splitSlash filename
  let stack := (segs.foldl normStep []).reverse
  if stack.isEmpty then "." else String.intercalate "/" stack

/-- Response of the GET /api/images/:filename handler: the file at a path,
or a 404. -/
inductive ImageResponse where
  | file (path : String)
  | notFound
deriving Repr, DecidableEq

/-- The GET /api/images/:filename handler: join the client-supplied filename
onto the uploads directory, serve the file if it exists, else 404. -/
def getImageByFilename (fsExists : String → Bool) (filename : String) : ImageResponse :=
  let imagePath := posixJoinUploads filename
  if fsExists imagePath then ImageResponse.file imagePath else ImageResponse.notFound

/-- A path lies under the managed uploads directory when it is the directory
itself or starts with the directory segment. -/
def underUploads (p : String) : Bool :=
  p == "uploads" || List.isPrefixOf "uploads/".data p.data

/-- A store transition persists like the orchestrator when the new store is
the old one extended by a block of fresh messages that is empty, a full
user-assistant pair, or the user-turn message alone (never assistant-only). -/
def persistedOk (old new : MemStorage) : Prop :=
  ∃ added : List Message,
    new.messages = old.messages ++ added ∧
    (added.length = 0 ∨ added.length = 2 ∨
      (added.length = 1 ∧ ∀ m ∈ added, m.role = "user"))

/-- The empty store. -/
def emptyStore : MemStorage := { messages := [], nextId := 0 }

/-- A file system with no files, for concrete runs. -/
def noFs : FileSystem := { existsSync := fun _ => false, readBase64 := fun _ => "" }

/-- An image-generation collaborator that always succeeds, for concrete runs. -/
def okGen : String → String → Except String Unit := fun _ _ => Except.ok ()

/-- A small demonstration store with two sessions and a timestamp tie, for
witnesses: two messages of session sA (timestamps 5 and 5, creation order
ids 0 then 1) around one message of session sB. -/
def demoStore : MemStorage :=
  { messages :=
      [ { id := 0, content := "hello", role := "user", sessionId := "sA",
          timestamp := 5, imageUrl := none, messageType := "text" }
      , { id := 1, content := "other", role := "user", sessionId := "sB",
          timestamp := 3, imageUrl := none, messageType := "text" }
      , { id := 2, content := "again", role := "assistant", sessionId := "sA",
          timestamp := 5, imageUrl := none, messageType := "text" } ]
    nextId := 3 }

end MyAiBot

namespace MyAiBot

/-- Inserting into the timestamp order is a permutation of consing. -/
theorem tsInsert_perm (m : Message) : ∀ l : List Message, List.Perm (tsInsert m l) (m :: l)
  | [] => List.Perm.refl _
  | x :: xs => by
    simp only [tsInsert]
    split
    · exact List.Perm.refl _
    · exact ((tsInsert_perm m xs).cons x).trans (List.Perm.swap m x xs)

/-- The timestamp sort permutes its input. -/
theorem tsSort_perm : ∀ l : List Message, List.Perm (tsSort l) l
  | [] => List.Perm.refl _
  | x :: xs => by
    simp only [tsSort]
    exact (tsInsert_perm x (tsSort xs)).trans ((tsSort_perm xs).cons x)

/-- Membership in a timestamp insertion. -/
theorem mem_tsInsert {y m : Message} {l : List Message} :
    y ∈ tsInsert m l ↔ y = m ∨ y ∈ l := by
  rw [(tsInsert_perm m l).mem_iff]
  simp

/-- Timestamp insertion preserves sortedness by timestamp. -/
theorem tsInsert_pairwise {m : Message} {l : List Message}
    (h : List.Pairwise (fun a b => a.timestamp ≤ b.timestamp) l) :
    List.Pairwise (fun a b => a.timestamp ≤ b.timestamp) (tsInsert m l) := by
  induction l with
  | nil => simp [tsInsert]
  | cons x xs ih =>
    rw [List.pairwise_cons] at h
    obtain ⟨hx, hxs⟩ := h
    simp only [tsInsert]
    split
    · rename_i hle
      rw [List.pairwise_cons]
      refine ⟨?_, List.pairwise_cons.mpr ⟨hx, hxs⟩⟩
      intro b hb
      rcases List.mem_cons.mp hb with rfl | hb
      · exact hle
      · exact le_trans hle (hx b hb)
    · rename_i hgt
      rw [List.pairwise_cons]
      refine ⟨?_, ih hxs⟩
      intro b hb
      rcases mem_tsInsert.mp hb with rfl | hb
      · omega
      · exact hx b hb

/-- The timestamp sort is sorted by timestamp. -/
theorem tsSort_pairwise :
    ∀ l : List Message, List.Pairwise (fun a b => a.timestamp ≤ b.timestamp) (tsSort l)
  | [] => by simp [tsSort]
  | x :: xs => by
    simp only [tsSort]
    exact tsInsert_pairwise (tsSort_pairwise xs)

/-- Filtering a timestamp insertion at a fixed timestamp value: the inserted
message lands in front of every kept occurrence of that value, because
insertion only passes strictly smaller timestamps. -/
theorem tsInsert_filter_ts (t : Nat) (m : Message) (l : List Message) :
    (tsInsert m l).filter (fun x => x.timestamp == t)
      = if m.timestamp == t then m :: l.filter (fun x => x.timestamp == t)
        else l.filter (fun x => x.timestamp == t) := by
  induction l with
  | nil =>
    cases h : (m.timestamp == t) <;> simp [tsInsert, h]
  | cons x xs ih =>
    by_cases hle : m.timestamp ≤ x.timestamp
    · simp only [tsInsert, if_pos hle]
      cases h : (m.timestamp == t) <;> simp [List.filter_cons, h]
    · simp only [tsInsert, if_neg hle]
      cases hm : (m.timestamp == t) with
      | true =>
        have h1 : m.timestamp = t := by simpa using hm
        have hx : (x.timestamp == t) = false := by simp; omega
        simp [List.filter_cons, hx, ih, hm]
      | false =>
        simp [List.filter_cons, ih, hm]

/-- Stability of the timestamp sort: restricted to any fixed timestamp value,
the sorted list is the input list (so ties keep their original order). -/
theorem tsSort_filter_ts (t : Nat) : ∀ l : List Message,
    (tsSort l).filter (fun x => x.timestamp == t) = l.filter (fun x => x.timestamp == t)
  | [] => rfl
  | x :: xs => by
    simp only [tsSort]
    rw [tsInsert_filter_ts]
    cases h : (x.timestamp == t) <;>
      simp [List.filter_cons, h, tsSort_filter_ts t xs]

end MyAiBot

namespace MyAiBot

/-- The fuel-driven digit renderer agrees with the base-10 digit list once
the fuel covers the number. -/
theorem natDecimalAux_eq : ∀ (fuel n : Nat) (acc : List Char), n ≤ fuel →
    natDecimalAux fuel n acc = ((Nat.digits 10 n).map Nat.digitChar).reverse ++ acc
  | 0, n, acc, h => by
    have hn : n = 0 := Nat.le_zero.mp h
    subst hn
    simp [natDecimalAux]
  | fuel + 1, n, acc, h => by
    by_cases hn : n = 0
    · subst hn
      simp [natDecimalAux]
    · have hfuel : n / 10 ≤ fuel := by
        have : n / 10 < n := Nat.div_lt_self (Nat.pos_of_ne_zero hn) (by norm_num)
        omega
      simp only [natDecimalAux, if_neg hn]
      rw [natDecimalAux_eq fuel (n / 10) (Nat.digitChar (n % 10) :: acc) hfuel,
        Nat.digits_def' (by norm_num : (1:Nat) < 10) (Nat.pos_of_ne_zero hn)]
      simp

theorem natDecimal_eq_digits {k : Nat} (hk : k ≠ 0) :
    natDecimal k = String.mk (((Nat.digits 10 k).map Nat.digitChar).reverse) := by
  simp only [natDecimal, if_neg hk]
  rw [natDecimalAux_eq k k [] (le_refl k)]
  simp

theorem digitChar_decode : ∀ d < 10, (Nat.digitChar d).toNat - 48 = d := by decide

theorem map_digitChar_digits (n : Nat) :
    ((Nat.digits 10 n).map Nat.digitChar).map (fun c => c.toNat - 48) = Nat.digits 10 n := by
  rw [List.map_map]
  have h : ∀ d ∈ Nat.digits 10 n, ((fun c => c.toNat - 48) ∘ Nat.digitChar) d = id d := by
    intro d hd
    have hlt : d < 10 := Nat.digits_lt_base (by norm_num) hd
    simpa using digitChar_decode d hlt
  rw [List.map_congr_left h, List.map_id]

theorem natDecimal_ne_zero_str {m : Nat} (hm : m ≠ 0) : natDecimal m ≠ "0" := by
  intro h
  rw [natDecimal_eq_digits hm] at h
  have hdata := congrArg String.data h
  have hrev : ((Nat.digits 10 m).map Nat.digitChar).reverse = ['0'] := hdata
  have hmap : (Nat.digits 10 m).map Nat.digitChar = ['0'] := by
    have := congrArg List.reverse hrev
    simpa using this
  have hdig : Nat.digits 10 m = [0] := by
    have := congrArg (List.map (fun c => c.toNat - 48)) hmap
    rwa [map_digitChar_digits] at this
  have : m = 0 := by
    have hof := Nat.ofDigits_digits 10 m
    rw [hdig] at hof
    simpa [Nat.ofDigits] using hof.symm
  exact hm this

theorem natDecimal_inj {n m : Nat} (h : natDecimal n = natDecimal m) : n = m := by
  by_cases hn : n = 0 <;> by_cases hm : m = 0
  · omega
  · exfalso
    rw [hn] at h
    exact natDecimal_ne_zero_str hm (h.symm.trans (by simp [natDecimal]))
  · exfalso
    rw [hm] at h
    exact natDecimal_ne_zero_str hn (h.trans (by simp [natDecimal]))
  · rw [natDecimal_eq_digits hn, natDecimal_eq_digits hm] at h
    have hdata : ((Nat.digits 10 n).map Nat.digitChar).reverse
        = ((Nat.digits 10 m).map Nat.digitChar).reverse := congrArg String.data h
    have hmap := List.reverse_injective hdata
    have hdig : Nat.digits 10 n = Nat.digits 10 m := by
      have := congrArg (List.map (fun c => c.toNat - 48)) hmap
      rwa [map_digitChar_digits, map_digitChar_digits] at this
    exact Nat.digits_inj_iff.mp hdig

end MyAiBot

namespace MyAiBot

theorem string_append_cancel_left {s x y : String} (h : s ++ x = s ++ y) : x = y := by
  have hd := congrArg String.data h
  simp only [String.data_append] at hd
  exact String.ext (List.append_cancel_left hd)

theorem string_append_cancel_right {x y s : String} (h : x ++ s = y ++ s) : x = y := by
  have hd := congrArg String.data h
  simp only [String.data_append] at hd
  exact String.ext (List.append_cancel_right hd)

theorem imageFilename_inj {a b : Nat} (h : imageFilename a = imageFilename b) : a = b := by
  unfold imageFilename at h
  have h1 : "generated_" ++ natDecimal a = "generated_" ++ natDecimal b :=
    string_append_cancel_right h
  exact natDecimal_inj (string_append_cancel_left h1)

theorem postGenerateImage_writtenPath {gen st prompt sessionId t1 now t2} {p : String}
    (h : (postGenerateImage gen st prompt sessionId t1 now t2).writtenPath = some p) :
    p = "uploads/" ++ imageFilename now := by
  unfold postGenerateImage at h
  split at h
  · dsimp only at h
    split at h
    · simp at h
    · simp at h
      exact h.symm
  · simp at h

theorem postChat_persistedOk (fs api st message sessionId t1 t2) :
    persistedOk st (postChat fs api st message sessionId t1 t2).store := by
  unfold postChat
  split
  · dsimp only
    split
    · refine ⟨[(createMessage st ⟨message, "user", sessionId, none, none⟩ t1).1], rfl, ?_⟩
      refine Or.inr (Or.inr ⟨rfl, ?_⟩)
      intro m hm
      simp at hm
      subst hm
      rfl
    · rename_i responseText heq
      refine ⟨[(createMessage st ⟨message, "user", sessionId, none, none⟩ t1).1,
        (createMessage (createMessage st ⟨message, "user", sessionId, none, none⟩ t1).2
          ⟨responseText, "assistant", sessionId, none, none⟩ t2).1], ?_, Or.inr (Or.inl rfl)⟩
      simp [createMessage]
  · exact ⟨[], by simp, Or.inl rfl⟩

theorem postUploadImage_persistedOk (analyze st file sessionId message t1 t2) :
    persistedOk st (postUploadImage analyze st file sessionId message t1 t2).store := by
  unfold postUploadImage
  split
  · exact ⟨[], by simp, Or.inl rfl⟩
  · rename_i imagePath
    split
    · dsimp only
      split
      · refine ⟨[(createMessage st ⟨jsStrOr message "I\x27ve uploaded an image for you to analyze.",
          "user", sessionId.getD "", some imagePath, some "image"⟩ t1).1], rfl, ?_⟩
        refine Or.inr (Or.inr ⟨rfl, ?_⟩)
        intro m hm
        simp at hm
        subst hm
        rfl
      · rename_i analysisResult heq
        refine ⟨[(createMessage st ⟨jsStrOr message "I\x27ve uploaded an image for you to analyze.",
            "user", sessionId.getD "", some imagePath, some "image"⟩ t1).1,
          (createMessage (createMessage st ⟨jsStrOr message "I\x27ve uploaded an image for you to analyze.",
              "user", sessionId.getD "", some imagePath, some "image"⟩ t1).2
            ⟨analysisResult, "assistant", sessionId.getD "", none, some "text"⟩ t2).1],
          ?_, Or.inr (Or.inl rfl)⟩
        simp [createMessage]
    · exact ⟨[], by simp, Or.inl rfl⟩

theorem postGenerateImage_persistedOk (gen st prompt sessionId t1 now t2) :
    persistedOk st (postGenerateImage gen st prompt sessionId t1 now t2).store := by
  unfold postGenerateImage
  split
  · dsimp only
    split
    · refine ⟨[(createMessage st ⟨"Generate an image: " ++ prompt, "user", sessionId,
        none, some "text"⟩ t1).1], rfl, ?_⟩
      refine Or.inr (Or.inr ⟨rfl, ?_⟩)
      intro m hm
      simp at hm
      subst hm
      rfl
    · refine ⟨[(createMessage st ⟨"Generate an image: " ++ prompt, "user", sessionId,
          none, some "text"⟩ t1).1,
        (createMessage (createMessage st ⟨"Generate an image: " ++ prompt, "user", sessionId,
            none, some "text"⟩ t1).2
          ⟨"I\x27ve generated an image based on your prompt: \"" ++ prompt ++ "\"",
            "assistant", sessionId, some ("uploads/" ++ imageFilename now),
            some "image_generation"⟩ t2).1], ?_, Or.inr (Or.inl rfl)⟩
      simp [createMessage]
  · exact ⟨[], by simp, Or.inl rfl⟩

end MyAiBot

namespace MyAiBot

/-- C3: for every session S and every store state, listBySession returns
exactly the messages whose sessionId equals S (a permutation of the
session-filtered store), sorted in non-decreasing timestamp order; no message
from a different session appears; and if S has no messages the result is the
empty sequence, not an error. -/
theorem claim3_listBySession (st : MemStorage) (S : String) :
    List.Perm (getMessagesBySessionId st S)
      (st.messages.filter (fun m => m.sessionId == S))
    ∧ List.Pairwise (fun a b => a.timestamp ≤ b.timestamp) (getMessagesBySessionId st S)
    ∧ (∀ m ∈ getMessagesBySessionId st S, m.sessionId = S)
    ∧ ((∀ m ∈ st.messages, m.sessionId ≠ S) → getMessagesBySessionId st S = []) := by
  refine ⟨tsSort_perm _, tsSort_pairwise _, ?_, ?_⟩
  · intro m hm
    have hmem := (tsSort_perm _).subset hm
    simpa using (List.mem_filter.mp hmem).2
  · intro h
    unfold getMessagesBySessionId
    have hnil : st.messages.filter (fun m => m.sessionId == S) = [] := by
      rw [List.filter_eq_nil_iff]
      intro m hm
      simpa using h m hm
    rw [hnil]
    rfl

/-- Witness for C3: the theorem applied to the concrete demonstration store
and session sA. -/
theorem claim3_witness :
    List.Perm (getMessagesBySessionId demoStore "sA")
      (demoStore.messages.filter (fun m => m.sessionId == "sA"))
    ∧ List.Pairwise (fun a b => a.timestamp ≤ b.timestamp) (getMessagesBySessionId demoStore "sA")
    ∧ (∀ m ∈ getMessagesBySessionId demoStore "sA", m.sessionId = "sA")
    ∧ ((∀ m ∈ demoStore.messages, m.sessionId ≠ "sA") → getMessagesBySessionId demoStore "sA" = []) :=
  claim3_listBySession demoStore "sA"

/-- C4: clearSession removes exactly the messages of session S, leaves every
other session unchanged (same listBySession answer), is idempotent, and
clearing followed by listing yields the empty sequence; clearing an unknown
or empty session is the identity no-op on its own messages. -/
theorem claim4_clearSession (st : MemStorage) (S : String) :
    (∀ m, m ∈ (clearMessagesBySessionId st S).messages
        ↔ (m ∈ st.messages ∧ m.sessionId ≠ S))
    ∧ (∀ T, T ≠ S → getMessagesBySessionId (clearMessagesBySessionId st S) T
        = getMessagesBySessionId st T)
    ∧ clearMessagesBySessionId (clearMessagesBySessionId st S) S = clearMessagesBySessionId st S
    ∧ getMessagesBySessionId (clearMessagesBySessionId st S) S = [] := by
  refine ⟨?_, ?_, ?_, ?_⟩
  · intro m
    unfold clearMessagesBySessionId
    simp [List.mem_filter]
  · intro T hT
    unfold getMessagesBySessionId clearMessagesBySessionId
    rw [List.filter_filter]
    congr 1
    apply List.filter_congr
    intro m hm
    by_cases hmT : m.sessionId = T
    · simp [hmT, hT]
    · simp [hmT]
  · unfold clearMessagesBySessionId
    simp [List.filter_filter]
  · unfold getMessagesBySessionId clearMessagesBySessionId
    rw [List.filter_filter]
    have hnil : st.messages.filter (fun m => m.sessionId == S && m.sessionId != S) = [] := by
      rw [List.filter_eq_nil_iff]
      intro m hm
      by_cases h : m.sessionId = S <;> simp [h]
    rw [hnil]
    rfl

/-- Witness for C4: the theorem applied to the concrete demonstration store
and session sA. -/
theorem claim4_witness :
    (∀ m, m ∈ (clearMessagesBySessionId demoStore "sA").messages
        ↔ (m ∈ demoStore.messages ∧ m.sessionId ≠ "sA"))
    ∧ (∀ T, T ≠ "sA" → getMessagesBySessionId (clearMessagesBySessionId demoStore "sA") T
        = getMessagesBySessionId demoStore T)
    ∧ clearMessagesBySessionId (clearMessagesBySessionId demoStore "sA") "sA"
        = clearMessagesBySessionId demoStore "sA"
    ∧ getMessagesBySessionId (clearMessagesBySessionId demoStore "sA") "sA" = [] :=
  claim4_clearSession demoStore "sA"

/-- C10 (implicit): among stored messages of a session with equal timestamps,
listBySession keeps creation order: restricting the sorted answer to any
fixed timestamp value gives exactly the insertion-ordered session messages
with that value (the store iterates in insertion order and the sort is
stable on the timestamp key). -/
theorem claim10_stable_ties (st : MemStorage) (S : String) (t : Nat) :
    (getMessagesBySessionId st S).filter (fun m => m.timestamp == t)
      = (st.messages.filter (fun m => m.sessionId == S)).filter
          (fun m => m.timestamp == t) :=
  tsSort_filter_ts t _

/-- C5: every produced context entry carries role "model" for an assistant
message and "user" otherwise; when the referenced image file is missing (or
the reference is absent) the entry is text-only, the text part is always
forwarded first, and the assembly step is total (no error). -/
theorem claim5_formatMessage (fs : FileSystem) (msg : ConvMsg) :
    ((formatMessage fs msg).role = if msg.role = "assistant" then "model" else "user")
    ∧ (∀ u, msg.imageUrl = some u → fs.existsSync u = false →
        (formatMessage fs msg).parts = [Part.text msg.content])
    ∧ (msg.imageUrl = none → (formatMessage fs msg).parts = [Part.text msg.content])
    ∧ (∃ rest, (formatMessage fs msg).parts = Part.text msg.content :: rest) := by
  refine ⟨rfl, ?_, ?_, ?_⟩
  · intro u hu hex
    by_cases hu0 : u = "" <;> simp [formatMessage, hu, hex, hu0]
  · intro hn
    simp [formatMessage, hn]
  · cases himg : msg.imageUrl with
    | none => exact ⟨[], by simp [formatMessage, himg]⟩
    | some u =>
      by_cases hu0 : u = ""
      · exact ⟨[], by simp [formatMessage, himg, hu0]⟩
      · cases hex : fs.existsSync u
        · exact ⟨[], by simp [formatMessage, himg, hu0, hex]⟩
        · exact ⟨[Part.inlineData (fs.readBase64 u) "image/jpeg"],
            by simp [formatMessage, himg, hu0, hex]⟩

/-- Witness for C5: the theorem applied to a concrete entry whose image file
is missing in the concrete file system. -/
theorem claim5_witness :
    ((formatMessage noFs ⟨"assistant", "look", some "uploads/x.jpg"⟩).role
        = if ("assistant" : String) = "assistant" then "model" else "user")
    ∧ (∀ u, (some "uploads/x.jpg" : Option String) = some u → noFs.existsSync u = false →
        (formatMessage noFs ⟨"assistant", "look", some "uploads/x.jpg"⟩).parts
          = [Part.text "look"])
    ∧ ((some "uploads/x.jpg" : Option String) = none →
        (formatMessage noFs ⟨"assistant", "look", some "uploads/x.jpg"⟩).parts
          = [Part.text "look"])
    ∧ (∃ rest, (formatMessage noFs ⟨"assistant", "look", some "uploads/x.jpg"⟩).parts
          = Part.text "look" :: rest) :=
  claim5_formatMessage noFs ⟨"assistant", "look", some "uploads/x.jpg"⟩

/-- C6 (code bug): the image-retrieval handler joins the raw client-supplied
filename onto the uploads directory without rejecting traversal segments, so
the request for the percent-encoded filename ../secret.txt resolves and reads
the path secret.txt, which lies outside the managed uploads directory. -/
theorem claim6_traversal_code_bug :
    getImageByFilename (fun p => p == "secret.txt") "../secret.txt"
        = ImageResponse.file "secret.txt"
    ∧ underUploads "secret.txt" = false
    ∧ getImageByFilename (fun _ => false) "pic.jpg" = ImageResponse.notFound :=
  ⟨by decide, by decide, by decide⟩

end MyAiBot

namespace MyAiBot

/-- Helper: when the external API always fails, the service call returns its
fixed error. -/
theorem generate_error (fs : FileSystem)
    (api : List FormattedMessage → Except String (Option String))
    (hapi : ∀ fmsgs, ∃ e, api fmsgs = Except.error e) (msgs : List ConvMsg) :
    generateChatResponseWithHistory fs api msgs
      = Except.error "Failed to generate response from Gemini API" := by
  unfold generateChatResponseWithHistory
  dsimp only
  obtain ⟨e, he⟩ := hapi (msgs.map (formatMessage fs))
  rw [he]

/-- C1 counterexample: a single text-message invocation whose model call
fails persists exactly one message, which is neither zero nor two. -/
theorem claim1_counterexample :
    ((postChat noFs (fun _ => Except.error "network") emptyStore "Hi" "s1" 1 2).store.messages.length ≠ 0)
    ∧ ((postChat noFs (fun _ => Except.error "network") emptyStore "Hi" "s1" 1 2).store.messages.length ≠ 2) :=
  ⟨by decide, by decide⟩

/-- C1 amended: every invocation of any of the three request protocols
persists exactly 0, 1 or 2 messages, and in the 1-message case the persisted
message is the user-turn message (never an assistant-only or other partial
write). -/
theorem claim1_amended_persist_counts (fs : FileSystem)
    (api : List FormattedMessage → Except String (Option String))
    (analyze : String → Option String → Except String String)
    (gen : String → String → Except String Unit)
    (st : MemStorage) (message sessionId uploadMessage prompt : String)
    (file sid : Option String) (t1 t2 now : Nat) :
    persistedOk st (postChat fs api st message sessionId t1 t2).store
    ∧ persistedOk st (postUploadImage analyze st file sid uploadMessage t1 t2).store
    ∧ persistedOk st (postGenerateImage gen st prompt sessionId t1 now t2).store :=
  ⟨postChat_persistedOk fs api st message sessionId t1 t2,
    postUploadImage_persistedOk analyze st file sid uploadMessage t1 t2,
    postGenerateImage_persistedOk gen st prompt sessionId t1 now t2⟩

/-- Witness for the amended C1: the three protocols run on concrete inputs. -/
theorem claim1_amended_witness :
    persistedOk emptyStore
      (postChat noFs (fun _ => Except.ok (some "Hello")) emptyStore "Hi" "s1" 1 2).store
    ∧ persistedOk emptyStore
      (postUploadImage (fun _ _ => Except.ok "analysis") emptyStore (some "uploads/a.jpg")
        (some "s1") "" 1 2).store
    ∧ persistedOk emptyStore
      (postGenerateImage okGen emptyStore "a red cube" "s1" 1 1000 2).store :=
  claim1_amended_persist_counts noFs (fun _ => Except.ok (some "Hello"))
    (fun _ _ => Except.ok "analysis") okGen emptyStore "Hi" "s1" "" "a red cube"
    (some "uploads/a.jpg") (some "s1") 1 2 1000

/-- C2: in the text-message protocol, if the model call raises after the user
message was persisted, no assistant message is persisted, the store is the
old store plus exactly that user message (left unchanged), the response is an
error, and the session holds exactly one new message. -/
theorem claim2_model_failure (fs : FileSystem)
    (api : List FormattedMessage → Except String (Option String))
    (st : MemStorage) (message sessionId : String) (t1 t2 : Nat)
    (hvalid : 1 ≤ message.length ∧ message.length ≤ 2000 ∧ 1 ≤ sessionId.length)
    (hapi : ∀ fmsgs, ∃ e, api fmsgs = Except.error e) :
    ∃ um : Message,
      (postChat fs api st message sessionId t1 t2).store.messages = st.messages ++ [um]
      ∧ um.role = "user" ∧ um.content = message ∧ um.sessionId = sessionId
      ∧ (∃ e, (postChat fs api st message sessionId t1 t2).response = Except.error e)
      ∧ (getMessagesBySessionId (postChat fs api st message sessionId t1 t2).store sessionId).length
          = (getMessagesBySessionId st sessionId).length + 1 := by
  unfold postChat
  rw [if_pos hvalid]
  dsimp only
  rw [generate_error fs api hapi]
  refine ⟨(createMessage st ⟨message, "user", sessionId, none, none⟩ t1).1,
    rfl, rfl, rfl, rfl, ⟨_, rfl⟩, ?_⟩
  unfold getMessagesBySessionId
  rw [(tsSort_perm _).length_eq, (tsSort_perm _).length_eq]
  simp [createMessage, List.filter_append]

end MyAiBot

namespace MyAiBot

/-- Witness for C2: the concrete chat run whose model call always fails. -/
theorem claim2_witness :
    ((1 ≤ ("Hi" : String).length ∧ ("Hi" : String).length ≤ 2000 ∧ 1 ≤ ("s1" : String).length))
    ∧ ∃ um : Message,
      (postChat noFs (fun _ => Except.error "boom") emptyStore "Hi" "s1" 1 2).store.messages
          = emptyStore.messages ++ [um]
      ∧ um.role = "user" ∧ um.content = "Hi" ∧ um.sessionId = "s1"
      ∧ (∃ e, (postChat noFs (fun _ => Except.error "boom") emptyStore "Hi" "s1" 1 2).response
          = Except.error e)
      ∧ (getMessagesBySessionId
            (postChat noFs (fun _ => Except.error "boom") emptyStore "Hi" "s1" 1 2).store "s1").length
          = (getMessagesBySessionId emptyStore "s1").length + 1 :=
  ⟨by decide,
    claim2_model_failure noFs (fun _ => Except.error "boom") emptyStore "Hi" "s1" 1 2
      (by decide) (fun fmsgs => ⟨"boom", rfl⟩)⟩

end MyAiBot

namespace MyAiBot

/-- C8: on every successful image-generation invocation, the persisted user
message content contains the literal prompt text, and the persisted
assistant message has messageType image_generation and a non-empty
imageUrl. -/
theorem claim8_generate_success (gen : String → String → Except String Unit)
    (st : MemStorage) (prompt sessionId : String) (t1 now t2 : Nat)
    (hvalid : 1 ≤ prompt.length ∧ prompt.length ≤ 1000 ∧ 1 ≤ sessionId.length)
    (hgen : ∀ p q, gen p q = Except.ok ()) :
    ∃ um am : Message,
      (postGenerateImage gen st prompt sessionId t1 now t2).response = Except.ok (um, am)
      ∧ (∃ pre post, um.content = pre ++ prompt ++ post)
      ∧ am.messageType = "image_generation"
      ∧ (∃ u, am.imageUrl = some u ∧ u ≠ "") := by
  have hne : "uploads/" ++ imageFilename now ≠ "" := by
    intro hcon
    have hlen := congrArg String.length hcon
    rw [String.length_append] at hlen
    have h8 : ("uploads/" : String).length = 8 := by decide
    have h0 : ("" : String).length = 0 := by decide
    omega
  unfold postGenerateImage
  rw [if_pos hvalid]
  dsimp only
  rw [hgen prompt ("uploads/" ++ imageFilename now)]
  refine ⟨_, _, rfl, ⟨"Generate an image: ", "", by simp [createMessage]⟩, ?_, ?_⟩
  · simp [createMessage, jsOrElse]
  · refine ⟨"uploads/" ++ imageFilename now, ?_, hne⟩
    simp [createMessage, jsOrNullStr, hne]

/-- Witness for C8: a concrete successful generation run. -/
theorem claim8_witness :
    (1 ≤ ("a red cube" : String).length ∧ ("a red cube" : String).length ≤ 1000
      ∧ 1 ≤ ("s2" : String).length)
    ∧ ∃ um am : Message,
      (postGenerateImage okGen emptyStore "a red cube" "s2" 1 1000 2).response
          = Except.ok (um, am)
      ∧ (∃ pre post, um.content = pre ++ "a red cube" ++ post)
      ∧ am.messageType = "image_generation"
      ∧ (∃ u, am.imageUrl = some u ∧ u ≠ "") :=
  ⟨by decide,
    claim8_generate_success okGen emptyStore "a red cube" "s2" 1 1000 2 (by decide)
      (fun p q => rfl)⟩

/-- C9 counterexample: two distinct image-generation invocations (different
prompts, sessions and creation instants) whose generation steps observe the
same millisecond clock value write to the same storage path, so the freshly
named locations are not distinct. -/
theorem claim9_counterexample :
    (postGenerateImage okGen emptyStore "a red cube" "s1" 1 1000 2).writtenPath
      = (postGenerateImage okGen emptyStore "a blue sphere" "s2" 5 1000 6).writtenPath
    ∧ (postGenerateImage okGen emptyStore "a red cube" "s1" 1 1000 2).writtenPath
      = some "uploads/generated_1000.jpg" :=
  ⟨by decide, by decide⟩

/-- C9 amended: the storage locations written by two image-generation
invocations are distinct whenever the two invocations observe distinct
millisecond clock values; within the same millisecond the time-based name
collides. -/
theorem claim9_amended_distinct_times
    (gen1 gen2 : String → String → Except String Unit) (stA stB : MemStorage)
    (prompt1 prompt2 sessionId1 sessionId2 : String)
    (t1 t2 t3 t4 now1 now2 : Nat) (p1 p2 : String)
    (hnow : now1 ≠ now2)
    (h1 : (postGenerateImage gen1 stA prompt1 sessionId1 t1 now1 t2).writtenPath = some p1)
    (h2 : (postGenerateImage gen2 stB prompt2 sessionId2 t3 now2 t4).writtenPath = some p2) :
    p1 ≠ p2 := by
  rw [postGenerateImage_writtenPath h1, postGenerateImage_writtenPath h2]
  intro h
  exact hnow (imageFilename_inj (string_append_cancel_left h))

/-- Witness for the amended C9: two concrete runs at distinct milliseconds. -/
theorem claim9_amended_witness :
    (1 : Nat) ≠ 2
    ∧ (postGenerateImage okGen emptyStore "a" "s" 1 1 2).writtenPath
        = some "uploads/generated_1.jpg"
    ∧ (postGenerateImage okGen emptyStore "b" "s" 1 2 2).writtenPath
        = some "uploads/generated_2.jpg"
    ∧ ("uploads/generated_1.jpg" : String) ≠ "uploads/generated_2.jpg" :=
  ⟨by decide, by decide, by decide,
    claim9_amended_distinct_times okGen okGen emptyStore emptyStore "a" "b" "s" "s"
      1 2 1 2 1 2 "uploads/generated_1.jpg" "uploads/generated_2.jpg"
      (by decide) (by decide) (by decide)⟩

end MyAiBot

namespace MyAiBot

/-- C7: sending message Hi for session s1 when s1 is empty passes exactly the
one-entry history containing the just-persisted user turn to the model call,
and afterwards session s1 holds exactly two messages in order: the user
message Hi, then the assistant message carrying the model reply. -/
theorem claim7_scenario_a (fs : FileSystem)
    (api : List FormattedMessage → Except String (Option String))
    (reply : String) (st : MemStorage) (t1 t2 : Nat)
    (hempty : ∀ m ∈ st.messages, m.sessionId ≠ "s1")
    (ht : t1 ≤ t2) (hreply : reply ≠ "")
    (hapi : api [formatMessage fs ⟨"user", "Hi", none⟩] = Except.ok (some reply)) :
    (postChat fs api st "Hi" "s1" t1 t2).historySent = some [⟨"user", "Hi", none⟩]
    ∧ ∃ um am : Message,
        getMessagesBySessionId (postChat fs api st "Hi" "s1" t1 t2).store "s1" = [um, am]
        ∧ um.role = "user" ∧ um.content = "Hi"
        ∧ am.role = "assistant" ∧ am.content = reply := by
  have hfilter : st.messages.filter (fun m => m.sessionId == "s1") = [] := by
    rw [List.filter_eq_nil_iff]
    intro m hm
    simpa using hempty m hm
  have hcond : 1 ≤ ("Hi" : String).length ∧ ("Hi" : String).length ≤ 2000
      ∧ 1 ≤ ("s1" : String).length := by decide
  have hhist : getMessagesBySessionId (createMessage st ⟨"Hi", "user", "s1", none, none⟩ t1).2 "s1"
      = [(createMessage st ⟨"Hi", "user", "s1", none, none⟩ t1).1] := by
    unfold getMessagesBySessionId createMessage
    dsimp only
    rw [List.filter_append, hfilter]
    simp [tsSort, tsInsert]
  unfold postChat
  rw [if_pos hcond]
  dsimp only
  rw [hhist]
  dsimp only [List.map, createMessage, jsOrNullStr, jsOrElse]
  unfold generateChatResponseWithHistory
  dsimp only [List.map]
  rw [hapi]
  dsimp only [jsOrElse]
  rw [if_neg hreply]
  refine ⟨rfl,
    { id := st.nextId, content := "Hi", role := "user", sessionId := "s1",
      timestamp := t1, imageUrl := none, messageType := "text" },
    { id := st.nextId + 1, content := reply, role := "assistant", sessionId := "s1",
      timestamp := t2, imageUrl := none, messageType := "text" },
    ?_, rfl, rfl, rfl, rfl⟩
  unfold getMessagesBySessionId
  dsimp only
  rw [List.filter_append, List.filter_append, hfilter]
  simp [tsSort, tsInsert, ht]

end MyAiBot

namespace MyAiBot

/-- Witness for C7: the concrete empty-store run with a model that replies
Hello. -/
theorem claim7_witness :
    (∀ m ∈ emptyStore.messages, m.sessionId ≠ "s1")
    ∧ (1 : Nat) ≤ 2
    ∧ ("Hello!" : String) ≠ ""
    ∧ ((fun (_ : List FormattedMessage) => (Except.ok (some "Hello!") : Except String (Option String)))
          [formatMessage noFs ⟨"user", "Hi", none⟩]
        = Except.ok (some "Hello!"))
    ∧ ((postChat noFs (fun _ => Except.ok (some "Hello!")) emptyStore "Hi" "s1" 1 2).historySent
        = some [⟨"user", "Hi", none⟩]
      ∧ ∃ um am : Message,
          getMessagesBySessionId
              (postChat noFs (fun _ => Except.ok (some "Hello!")) emptyStore "Hi" "s1" 1 2).store "s1"
            = [um, am]
          ∧ um.role = "user" ∧ um.content = "Hi"
          ∧ am.role = "assistant" ∧ am.content = "Hello!") :=
  ⟨by intro m hm; simp [emptyStore] at hm, by decide, by decide, rfl,
    claim7_scenario_a noFs (fun _ => Except.ok (some "Hello!")) "Hello!" emptyStore 1 2
      (by intro m hm; simp [emptyStore] at hm) (by decide) (by decide) rfl⟩

end MyAiBot
